import Mathlib

/-!
Verification of the offline operation queue (src/src/utils/offlineQueue.ts).

A shallow embedding of the `OfflineQueueManager` class: the queued-operation
data model, the queue store (`loadQueue` / `saveQueue` over a single storage
slot), id generation, `queueOperation` (enqueue) and `syncQueue` (drain pass).

The environment is modelled by oracles:
* delivery outcomes: a per-pass function from the operation being attempted
  to `Except String Unit` (`.ok` = the awaited service call resolved,
  `.error msg` = it rejected with `msg`), mirroring the `try`/`catch` around
  `executeOperation`;
* storage write outcome: a `Bool` saying whether `localStorage.setItem`
  succeeded (on failure `saveQueue` catches and leaves storage unchanged);
* `Date.now()` and the `Math.random()` suffix feeding `generateId` are
  explicit arguments.

All definitions are computable and mirror the TypeScript source line by line.
-/

namespace OfflineQueue

/-- The `type` field of the `QueuedOperation` interface: CREATE, UPDATE or DELETE. -/
inductive OpType
  | CREATE
  | UPDATE
  | DELETE
  deriving DecidableEq, Repr

/-- The `data: any` payload.  `executeOperation` reads `data.id` and
`data.updates` for UPDATE and `data.id` for DELETE; for CREATE the whole
payload is handed to `createHarvest`.  We model it as a record carrying those
projections plus the uninterpreted create fields. -/
structure HData where
  id : String
  updates : String
  fields : String
  deriving DecidableEq, Repr

/-- The `QueuedOperation` interface. -/
structure QueuedOperation where
  id : String
  type : OpType
  data : HData
  timestamp : Nat
  retryCount : Nat
  deriving DecidableEq, Repr

/-- `const MAX_RETRIES = 3`. -/
def MAX_RETRIES : Nat := 3

/-- A call into `harvestService`, as issued by `executeOperation`. -/
inductive ServiceCall
  | createHarvest (data : HData)
  | updateHarvest (id : String) (updates : String)
  | deleteHarvest (id : String)
  deriving DecidableEq, Repr

/-- The content of the `farmer_app_offline_queue` storage slot:
either a serialization `JSON.parse` recovers a queue from, or bytes on which
`JSON.parse` throws. -/
inductive StoredValue
  | wellFormed (q : List QueuedOperation)
  | corrupt (raw : String)
  deriving DecidableEq, Repr

/-- The mutable fields of `OfflineQueueManager`, together with the storage
slot the instance reads and writes. -/
structure QState where
  queue : List QueuedOperation
  isOnline : Bool
  syncInProgress : Bool
  storage : Option StoredValue
  deriving DecidableEq, Repr

/-- `loadQueue`: read the storage slot; if nothing is stored the queue stays
at its initial `[]`; if `JSON.parse` throws, the `catch` sets the queue
to `[]`. -/
def loadQueue (saved : Option StoredValue) : List QueuedOperation :=
  match saved with
  | none => []
  | some (StoredValue.wellFormed q) => q
  | some (StoredValue.corrupt _) => []

/-- `saveQueue`: `localStorage.setItem(STORAGE_KEY, JSON.stringify(this.queue))`
inside a `try`/`catch`; on a storage error the slot is left as it was and the
error is only logged. -/
def saveQueue (saveOk : Bool) (storage : Option StoredValue)
    (queue : List QueuedOperation) : Option StoredValue :=
  if saveOk then some (StoredValue.wellFormed queue) else storage

/-- `generateId`: the template string
`offline_(Date.now())_(random suffix)`. -/
def generateId (now : Nat) (rand : String) : String :=
  "offline_" ++ toString now ++ "_" ++ rand

/-- `executeOperation`: the `harvestService` call dispatched on
`operation.type`. -/
def executeOperation (op : QueuedOperation) : ServiceCall :=
  match op.type with
  | OpType.CREATE => ServiceCall.createHarvest op.data
  | OpType.UPDATE => ServiceCall.updateHarvest op.data.id op.data.updates
  | OpType.DELETE => ServiceCall.deleteHarvest op.data.id

/-- One iteration of the `for (const operation of this.queue)` loop in
`syncQueue`: attempt delivery; on success the id joins
`successfulOperations` and the operation object is untouched; on failure
`retryCount` is incremented in place and the id joins `successfulOperations`
exactly when the incremented count meets `MAX_RETRIES`.
Returns the operation object as it stands after the iteration, paired with
whether its id was pushed to `successfulOperations`. -/
def syncStep (exec : QueuedOperation → Except String Unit)
    (op : QueuedOperation) : QueuedOperation × Bool :=
  match exec op with
  | Except.ok _ => (op, true)
  | Except.error _ =>
    let op2 := { op with retryCount := op.retryCount + 1 }
    (op2, decide (MAX_RETRIES ≤ op2.retryCount))

/-- The queue after the `for` loop of `syncQueue`: each operation object as
mutated by its iteration (`this.queue` with the in-place `retryCount++`
applied to the failed ones). -/
def passStepped (exec : QueuedOperation → Except String Unit)
    (q : List QueuedOperation) : List (QueuedOperation × Bool) :=
  q.map (syncStep exec)

/-- The `successfulOperations` array at the end of the loop: ids pushed on
success, plus ids pushed when a failure drove `retryCount` to the cap. -/
def successfulOperations (exec : QueuedOperation → Except String Unit)
    (q : List QueuedOperation) : List String :=
  ((passStepped exec q).filter (fun p => p.2)).map (fun p => p.1.id)

/-- `this.queue = this.queue.filter(op => !successfulOperations.includes(op.id))`
applied to the loop-mutated queue. -/
def passNewQueue (exec : QueuedOperation → Except String Unit)
    (q : List QueuedOperation) : List QueuedOperation :=
  ((passStepped exec q).map (fun p => p.1)).filter
    (fun op => !(successfulOperations exec q).contains op.id)

/-- `syncQueue`: guard (`!isOnline || syncInProgress || queue.length === 0`),
then the attempt loop over the current queue, then
`queue = queue.filter(op => !successfulOperations.includes(op.id))`,
`saveQueue()`, and clearing `syncInProgress`.  Returns the resulting state
and the ordered list of `harvestService` calls issued during the pass. -/
def syncQueue (exec : QueuedOperation → Except String Unit) (saveOk : Bool)
    (s : QState) : QState × List ServiceCall :=
  if !s.isOnline || s.syncInProgress || s.queue.length = 0 then (s, [])
  else
    ({ queue := passNewQueue exec s.queue
       isOnline := s.isOnline
       syncInProgress := false
       storage := saveQueue saveOk s.storage (passNewQueue exec s.queue) },
     s.queue.map executeOperation)

/-- `queueOperation`: build the operation (`retryCount: 0`), push it, persist,
and — `if (this.isOnline && !this.syncInProgress)` — trigger `syncQueue`.
Returns the final state, `operation.id`, and the service calls made by the
triggered pass (empty when no pass was triggered). -/
def queueOperation (now : Nat) (rand : String)
    (exec : QueuedOperation → Except String Unit) (saveOk : Bool)
    (ty : OpType) (data : HData) (s : QState) :
    QState × String × List ServiceCall :=
  let operation : QueuedOperation :=
    { id := generateId now rand
      type := ty
      data := data
      timestamp := now
      retryCount := 0 }
  let s1 : QState := { s with queue := s.queue ++ [operation] }
  let s2 : QState := { s1 with storage := saveQueue saveOk s1.storage s1.queue }
  if s2.isOnline && !s2.syncInProgress then
    let r := syncQueue exec saveOk s2
    (r.1, operation.id, r.2)
  else
    (s2, operation.id, [])

/-- `getQueueStatus`: the read-only projection handed to the UI. -/
structure QueueStatus where
  isOnline : Bool
  queueLength : Nat
  syncInProgress : Bool
  deriving DecidableEq, Repr

/-- `getQueueStatus()`. -/
def getQueueStatus (s : QState) : QueueStatus :=
  { isOnline := s.isOnline
    queueLength := s.queue.length
    syncInProgress := s.syncInProgress }

/-- Iterated drain passes, one oracle per pass (the environment may behave
differently on each pass). -/
def drainPasses (saveOk : Bool)
    (execs : List (QueuedOperation → Except String Unit)) (s : QState) : QState :=
  execs.foldl (fun st e => (syncQueue e saveOk st).1) s

/-! ## Helper lemmas about a single drain pass -/

theorem syncStep_id (exec : QueuedOperation → Except String Unit)
    (op : QueuedOperation) : (syncStep exec op).1.id = op.id := by
  unfold syncStep
  cases exec op <;> rfl

theorem syncStep_retry_le (exec : QueuedOperation → Except String Unit)
    (op : QueuedOperation) : op.retryCount ≤ (syncStep exec op).1.retryCount := by
  unfold syncStep
  cases exec op with
  | ok u => exact Nat.le_refl _
  | error msg => exact Nat.le_succ _

theorem syncStep_ok {exec : QueuedOperation → Except String Unit}
    {op : QueuedOperation} {u : Unit} (h : exec op = Except.ok u) :
    syncStep exec op = (op, true) := by
  unfold syncStep
  rw [h]

theorem syncStep_error {exec : QueuedOperation → Except String Unit}
    {op : QueuedOperation} {msg : String} (h : exec op = Except.error msg) :
    syncStep exec op =
      ({ op with retryCount := op.retryCount + 1 },
       decide (MAX_RETRIES ≤ op.retryCount + 1)) := by
  unfold syncStep
  rw [h]

theorem mem_successfulOperations_iff (exec : QueuedOperation → Except String Unit)
    (q : List QueuedOperation) (i : String) :
    i ∈ successfulOperations exec q ↔
      ∃ o ∈ q, (syncStep exec o).2 = true ∧ (syncStep exec o).1.id = i := by
  simp only [successfulOperations, passStepped, List.mem_map, List.mem_filter]
  constructor
  · rintro ⟨p, ⟨⟨o, ho, rfl⟩, hflag⟩, rfl⟩
    exact ⟨o, ho, hflag, rfl⟩
  · rintro ⟨o, ho, hflag, hid⟩
    exact ⟨syncStep exec o, ⟨⟨o, ho, rfl⟩, hflag⟩, hid⟩

theorem mem_passNewQueue_iff (exec : QueuedOperation → Except String Unit)
    (q : List QueuedOperation) (op2 : QueuedOperation) :
    op2 ∈ passNewQueue exec q ↔
      ((∃ op ∈ q, (syncStep exec op).1 = op2) ∧
       ∀ o ∈ q, (syncStep exec o).2 = true → (syncStep exec o).1.id ≠ op2.id) := by
  unfold passNewQueue
  rw [List.mem_filter]
  constructor
  · rintro ⟨h1, h2⟩
    simp only [passStepped, List.map_map, List.mem_map] at h1
    obtain ⟨op, hop, hstep⟩ := h1
    refine ⟨⟨op, hop, hstep⟩, ?_⟩
    intro o ho hflag hid
    have hmem : op2.id ∈ successfulOperations exec q :=
      (mem_successfulOperations_iff exec q op2.id).2 ⟨o, ho, hflag, hid⟩
    have h2e : (!List.elem op2.id (successfulOperations exec q)) = true := h2
    rw [List.elem_iff.2 hmem] at h2e
    exact (by decide : (!true) ≠ true) h2e
  · rintro ⟨⟨op, hop, hstep⟩, hids⟩
    refine ⟨?_, ?_⟩
    · simp only [passStepped, List.map_map, List.mem_map]
      exact ⟨op, hop, hstep⟩
    · show (!List.elem op2.id (successfulOperations exec q)) = true
      cases hb : List.elem op2.id (successfulOperations exec q) with
      | false => rfl
      | true =>
        exfalso
        have hmem : op2.id ∈ successfulOperations exec q := List.elem_iff.1 hb
        rw [mem_successfulOperations_iff] at hmem
        obtain ⟨o, ho, hflag, hid⟩ := hmem
        exact hids o ho hflag hid

theorem passNewQueue_retry_lt {exec : QueuedOperation → Except String Unit}
    {q : List QueuedOperation} {op2 : QueuedOperation}
    (h : op2 ∈ passNewQueue exec q) : op2.retryCount < MAX_RETRIES := by
  rw [mem_passNewQueue_iff] at h
  obtain ⟨⟨op, hop, hstep⟩, hids⟩ := h
  have hflag : (syncStep exec op).2 = false := by
    cases hb : (syncStep exec op).2 with
    | false => rfl
    | true => exact absurd (hstep ▸ rfl) (hids op hop hb)
  cases hx : exec op with
  | ok u =>
    rw [syncStep_ok hx] at hflag
    exact Bool.noConfusion hflag
  | error msg =>
    rw [syncStep_error hx] at hflag hstep
    simp only [decide_eq_false_iff_not, Nat.not_le] at hflag
    rw [← hstep]
    exact hflag

theorem passNewQueue_ids_sublist (exec : QueuedOperation → Except String Unit)
    (q : List QueuedOperation) :
    ((passNewQueue exec q).map QueuedOperation.id).Sublist
      (q.map QueuedOperation.id) := by
  have h1 : (((passStepped exec q).map (fun p => p.1)).map
      QueuedOperation.id) = q.map QueuedOperation.id := by
    simp only [passStepped, List.map_map]
    exact List.map_congr_left (fun op _ => syncStep_id exec op)
  have h2 : ((passNewQueue exec q).map QueuedOperation.id).Sublist
      (((passStepped exec q).map (fun p => p.1)).map QueuedOperation.id) :=
    List.Sublist.map _ (List.filter_sublist _)
  rw [h1] at h2
  exact h2

theorem passNewQueue_nodup {exec : QueuedOperation → Except String Unit}
    {q : List QueuedOperation}
    (h : (q.map QueuedOperation.id).Nodup) :
    ((passNewQueue exec q).map QueuedOperation.id).Nodup :=
  (passNewQueue_ids_sublist exec q).nodup h

theorem passNewQueue_absent {exec : QueuedOperation → Except String Unit}
    {q : List QueuedOperation} {i : String}
    (h : ∀ o ∈ q, o.id ≠ i) :
    ∀ op2 ∈ passNewQueue exec q, op2.id ≠ i := by
  intro op2 hmem
  rw [mem_passNewQueue_iff] at hmem
  obtain ⟨⟨op, hop, hstep⟩, _⟩ := hmem
  rw [← hstep, syncStep_id]
  exact h op hop

theorem passNewQueue_retry_mono {exec : QueuedOperation → Except String Unit}
    {q : List QueuedOperation} {op2 : QueuedOperation}
    (h : op2 ∈ passNewQueue exec q) :
    ∃ op ∈ q, op.id = op2.id ∧ op.retryCount ≤ op2.retryCount := by
  rw [mem_passNewQueue_iff] at h
  obtain ⟨⟨op, hop, hstep⟩, _⟩ := h
  exact ⟨op, hop, by rw [← hstep, syncStep_id], by rw [← hstep]; exact syncStep_retry_le _ _⟩

theorem passNewQueue_fail_keep {exec : QueuedOperation → Except String Unit}
    {q : List QueuedOperation} {op : QueuedOperation} {msg : String}
    (hNodup : (q.map QueuedOperation.id).Nodup) (hop : op ∈ q)
    (hx : exec op = Except.error msg) (hlt : op.retryCount + 1 < MAX_RETRIES) :
    { op with retryCount := op.retryCount + 1 } ∈ passNewQueue exec q := by
  rw [mem_passNewQueue_iff]
  refine ⟨⟨op, hop, by rw [syncStep_error hx]⟩, ?_⟩
  intro o ho hflag hid
  have hoid : o.id = op.id := by rw [← syncStep_id exec o]; exact hid
  have hoo : o = op := List.inj_on_of_nodup_map hNodup ho hop hoid
  subst hoo
  rw [syncStep_error hx] at hflag
  have : MAX_RETRIES ≤ o.retryCount + 1 := of_decide_eq_true hflag
  exact absurd this (Nat.not_le.2 hlt)

theorem passNewQueue_fail_drop {exec : QueuedOperation → Except String Unit}
    {q : List QueuedOperation} {op : QueuedOperation} {msg : String}
    (hop : op ∈ q) (hx : exec op = Except.error msg)
    (hge : MAX_RETRIES ≤ op.retryCount + 1) :
    ∀ op2 ∈ passNewQueue exec q, op2.id ≠ op.id := by
  intro op2 h2 hid
  rw [mem_passNewQueue_iff] at h2
  exact h2.2 op hop (by rw [syncStep_error hx]; exact decide_eq_true hge)
    (by rw [syncStep_error hx]; exact hid.symm)

theorem passNewQueue_succ_drop {exec : QueuedOperation → Except String Unit}
    {q : List QueuedOperation} {op : QueuedOperation} {u : Unit}
    (hop : op ∈ q) (hx : exec op = Except.ok u) :
    ∀ op2 ∈ passNewQueue exec q, op2.id ≠ op.id := by
  intro op2 h2 hid
  rw [mem_passNewQueue_iff] at h2
  exact h2.2 op hop (by rw [syncStep_ok hx]) (by rw [syncStep_ok hx]; exact hid.symm)

/-! ## Lemmas about syncQueue and iterated passes -/

theorem syncQueue_noop {exec : QueuedOperation → Except String Unit}
    {saveOk : Bool} {s : QState}
    (h : s.isOnline = false ∨ s.syncInProgress = true ∨ s.queue = []) :
    syncQueue exec saveOk s = (s, []) := by
  rcases h with h | h | h <;> simp [syncQueue, h]

theorem syncQueue_run {exec : QueuedOperation → Except String Unit}
    {saveOk : Bool} {s : QState}
    (h1 : s.isOnline = true) (h2 : s.syncInProgress = false)
    (h3 : s.queue ≠ []) :
    syncQueue exec saveOk s =
      ({ queue := passNewQueue exec s.queue
         isOnline := s.isOnline
         syncInProgress := false
         storage := saveQueue saveOk s.storage (passNewQueue exec s.queue) },
       s.queue.map executeOperation) := by
  simp [syncQueue, h1, h2, h3]

theorem syncQueue_isOnline (exec : QueuedOperation → Except String Unit)
    (saveOk : Bool) (s : QState) :
    (syncQueue exec saveOk s).1.isOnline = s.isOnline := by
  unfold syncQueue
  split <;> rfl

theorem syncQueue_syncInProgress {exec : QueuedOperation → Except String Unit}
    {saveOk : Bool} {s : QState} (h : s.syncInProgress = false) :
    (syncQueue exec saveOk s).1.syncInProgress = false := by
  unfold syncQueue
  split
  · exact h
  · rfl

theorem syncQueue_nodup {exec : QueuedOperation → Except String Unit}
    {saveOk : Bool} {s : QState}
    (h : (s.queue.map QueuedOperation.id).Nodup) :
    ((syncQueue exec saveOk s).1.queue.map QueuedOperation.id).Nodup := by
  unfold syncQueue
  split
  · exact h
  · exact passNewQueue_nodup h

theorem syncQueue_absent {exec : QueuedOperation → Except String Unit}
    {saveOk : Bool} {s : QState} {i : String}
    (h : ∀ o ∈ s.queue, o.id ≠ i) :
    ∀ op2 ∈ (syncQueue exec saveOk s).1.queue, op2.id ≠ i := by
  intro op2 h2
  unfold syncQueue at h2
  split at h2
  · exact h op2 h2
  · exact passNewQueue_absent h op2 h2

theorem drainPasses_absent {saveOk : Bool}
    {execs : List (QueuedOperation → Except String Unit)} {s : QState} {i : String}
    (h : ∀ o ∈ s.queue, o.id ≠ i) :
    ∀ op2 ∈ (drainPasses saveOk execs s).queue, op2.id ≠ i := by
  induction execs generalizing s with
  | nil => exact h
  | cons e es ih => exact ih (syncQueue_absent h)

theorem syncQueue_retry_mono (exec : QueuedOperation → Except String Unit)
    (saveOk : Bool) (s : QState) :
    ∀ op2 ∈ (syncQueue exec saveOk s).1.queue,
      ∃ op ∈ s.queue, op.id = op2.id ∧ op.retryCount ≤ op2.retryCount := by
  intro op2 h2
  unfold syncQueue at h2
  split at h2
  · exact ⟨op2, h2, rfl, Nat.le_refl _⟩
  · exact passNewQueue_retry_mono h2

/-! ## Lemmas about queueOperation, and iterated enqueues -/

theorem queueOperation_untriggered {now : Nat} {rand : String}
    {exec : QueuedOperation → Except String Unit} {saveOk : Bool}
    {ty : OpType} {d : HData} {s : QState}
    (h : (s.isOnline && !s.syncInProgress) = false) :
    queueOperation now rand exec saveOk ty d s =
      ({ s with
         queue := s.queue ++ [⟨generateId now rand, ty, d, now, 0⟩],
         storage := saveQueue saveOk s.storage
           (s.queue ++ [⟨generateId now rand, ty, d, now, 0⟩]) },
       generateId now rand, []) := by
  unfold queueOperation
  dsimp only
  rw [h]
  rfl

theorem queueOperation_triggered {now : Nat} {rand : String}
    {exec : QueuedOperation → Except String Unit} {saveOk : Bool}
    {ty : OpType} {d : HData} {s : QState}
    (h : (s.isOnline && !s.syncInProgress) = true) :
    queueOperation now rand exec saveOk ty d s =
      ((syncQueue exec saveOk
          { s with
            queue := s.queue ++ [⟨generateId now rand, ty, d, now, 0⟩],
            storage := saveQueue saveOk s.storage
              (s.queue ++ [⟨generateId now rand, ty, d, now, 0⟩]) }).1,
       generateId now rand,
       (syncQueue exec saveOk
          { s with
            queue := s.queue ++ [⟨generateId now rand, ty, d, now, 0⟩],
            storage := saveQueue saveOk s.storage
              (s.queue ++ [⟨generateId now rand, ty, d, now, 0⟩]) }).2) := by
  unfold queueOperation
  dsimp only
  rw [h]
  rfl

/-- One request to `queueOperation`: the ambient `Date.now()` value, the
random id suffix, and the arguments. -/
structure EnqueueReq where
  now : Nat
  rand : String
  ty : OpType
  data : HData

/-- A sequence of `queueOperation` calls, collecting every service call any
of them triggers. -/
def enqueueAll (exec : QueuedOperation → Except String Unit) (saveOk : Bool)
    (reqs : List EnqueueReq) (s : QState) : QState × List ServiceCall :=
  match reqs with
  | [] => (s, [])
  | r :: rs =>
    let t := queueOperation r.now r.rand exec saveOk r.ty r.data s
    let u := enqueueAll exec saveOk rs t.1
    (u.1, t.2.2 ++ u.2)

theorem enqueueAll_offline {exec : QueuedOperation → Except String Unit}
    {saveOk : Bool} {reqs : List EnqueueReq} :
    ∀ {s : QState}, s.isOnline = false →
      (enqueueAll exec saveOk reqs s).1.isOnline = false ∧
      (enqueueAll exec saveOk reqs s).1.queue.length = s.queue.length + reqs.length ∧
      (enqueueAll exec saveOk reqs s).2 = [] := by
  induction reqs with
  | nil => exact fun h => ⟨h, rfl, rfl⟩
  | cons r rs ih =>
    intro s h
    have hcond : (s.isOnline && !s.syncInProgress) = false := by rw [h]; rfl
    have hu := @queueOperation_untriggered r.now r.rand exec saveOk r.ty r.data s hcond
    simp only [enqueueAll, hu]
    obtain ⟨ih1, ih2, ih3⟩ := ih (s := { s with
      queue := s.queue ++ [⟨generateId r.now r.rand, r.ty, r.data, r.now, 0⟩],
      storage := saveQueue saveOk s.storage
        (s.queue ++ [⟨generateId r.now r.rand, r.ty, r.data, r.now, 0⟩]) }) h
    refine ⟨ih1, ?_, by rw [ih3]; rfl⟩
    have ih2b : (enqueueAll exec saveOk rs
        { s with
          queue := s.queue ++ [QueuedOperation.mk (generateId r.now r.rand) r.ty r.data r.now 0],
          storage := saveQueue saveOk s.storage
            (s.queue ++ [QueuedOperation.mk (generateId r.now r.rand) r.ty r.data r.now 0]) }).1.queue.length =
        (s.queue ++ [QueuedOperation.mk (generateId r.now r.rand) r.ty r.data r.now 0]).length + rs.length := ih2
    rw [ih2b]
    simp only [List.length_append, List.length_cons, List.length_nil]
    omega

/-! ## Outcome congruence: error values are swallowed -/

/-- Whether a delivery attempt resolved (`true`) or rejected (`false`). -/
def deliveryOk (r : Except String Unit) : Bool :=
  match r with
  | Except.ok _ => true
  | Except.error _ => false

theorem syncStep_congr {exec exec2 : QueuedOperation → Except String Unit}
    {o : QueuedOperation} (h : deliveryOk (exec o) = deliveryOk (exec2 o)) :
    syncStep exec o = syncStep exec2 o := by
  unfold syncStep
  cases h1 : exec o with
  | ok u =>
    cases h2 : exec2 o with
    | ok v => rfl
    | error m => rw [h1, h2] at h; exact Bool.noConfusion h
  | error m =>
    cases h2 : exec2 o with
    | ok v => rw [h1, h2] at h; exact Bool.noConfusion h
    | error m2 => rfl

theorem passNewQueue_congr {exec exec2 : QueuedOperation → Except String Unit}
    {q : List QueuedOperation}
    (h : ∀ o : QueuedOperation, deliveryOk (exec o) = deliveryOk (exec2 o)) :
    passNewQueue exec q = passNewQueue exec2 q := by
  have hmap : q.map (syncStep exec) = q.map (syncStep exec2) :=
    List.map_congr_left (fun o _ => syncStep_congr (h o))
  simp only [passNewQueue, passStepped, successfulOperations, hmap]

theorem syncQueue_congr {exec exec2 : QueuedOperation → Except String Unit}
    {saveOk : Bool} {s : QState}
    (h : ∀ o : QueuedOperation, deliveryOk (exec o) = deliveryOk (exec2 o)) :
    syncQueue exec saveOk s = syncQueue exec2 saveOk s := by
  unfold syncQueue
  rw [passNewQueue_congr h]

/-- Environment in which delivery rejects while the operation still has a
retry count below 2, and resolves afterwards: fails twice, then succeeds. -/
def flaky : QueuedOperation → Except String Unit :=
  fun o => if o.retryCount < 2 then Except.error "network error" else Except.ok ()

/-! ## Sample values used by witnesses -/

/-- A sample payload. -/
def sampleData : HData :=
  { id := "h1", updates := "quantity=12", fields := "Corn,12,kg" }

/-- A sample queued operation with `retryCount = 0`. -/
def sampleOp : QueuedOperation :=
  { id := "offline_1_a", type := OpType.CREATE, data := sampleData
    timestamp := 1, retryCount := 0 }

/-- Environment in which every delivery attempt rejects. -/
def failAll : QueuedOperation → Except String Unit :=
  fun _ => Except.error "network error"

/-- Environment in which every delivery attempt resolves. -/
def okAll : QueuedOperation → Except String Unit :=
  fun _ => Except.ok ()

/-- A second sample payload. -/
def sampleDataB : HData :=
  { id := "h2", updates := "quantity=7", fields := "Wheat,7,kg" }

/-- A second sample queued operation, distinct id. -/
def sampleOpB : QueuedOperation :=
  { id := "offline_2_b", type := OpType.CREATE, data := sampleDataB
    timestamp := 2, retryCount := 0 }

/-! ## The claims -/

/-- Claim C1: for an operation whose delivery fails on every attempt, the
first drain pass leaves it queued with `retryCount = 1`, the second with
`retryCount = 2`, after the third (`MAX_RETRIES`-th) pass no operation with
its id remains, and it stays absent over any sequence of later passes; and
across any single pass the retry counter of every surviving operation is at least
what an operation with the same id had before the pass (the counter never
decreases). -/
theorem claim1_retry_cap
    (saveOk : Bool) (s : QState) (op : QueuedOperation)
    (e1 e2 e3 : QueuedOperation → Except String Unit)
    (rest : List (QueuedOperation → Except String Unit))
    (hOn : s.isOnline = true) (hSync : s.syncInProgress = false)
    (hNodup : (s.queue.map QueuedOperation.id).Nodup)
    (hMem : op ∈ s.queue) (hR : op.retryCount = 0)
    (hFail1 : ∀ o : QueuedOperation, o.id = op.id → ∃ msg, e1 o = Except.error msg)
    (hFail2 : ∀ o : QueuedOperation, o.id = op.id → ∃ msg, e2 o = Except.error msg)
    (hFail3 : ∀ o : QueuedOperation, o.id = op.id → ∃ msg, e3 o = Except.error msg) :
    ({ op with retryCount := 1 } ∈ (syncQueue e1 saveOk s).1.queue) ∧
    ({ op with retryCount := 2 } ∈
      (syncQueue e2 saveOk (syncQueue e1 saveOk s).1).1.queue) ∧
    (∀ o ∈ (syncQueue e3 saveOk
        (syncQueue e2 saveOk (syncQueue e1 saveOk s).1).1).1.queue,
      o.id ≠ op.id) ∧
    (∀ o ∈ (drainPasses saveOk rest (syncQueue e3 saveOk
        (syncQueue e2 saveOk (syncQueue e1 saveOk s).1).1).1).queue,
      o.id ≠ op.id) ∧
    (∀ (e : QueuedOperation → Except String Unit) (t : QState),
      ∀ o2 ∈ (syncQueue e saveOk t).1.queue,
        ∃ o1 ∈ t.queue, o1.id = o2.id ∧ o1.retryCount ≤ o2.retryCount) := by
  obtain ⟨m1, hm1⟩ := hFail1 op rfl
  have hne1 : s.queue ≠ [] := List.ne_nil_of_mem hMem
  have hq1 : (syncQueue e1 saveOk s).1.queue = passNewQueue e1 s.queue := by
    rw [syncQueue_run hOn hSync hne1]
  have hk1 : { op with retryCount := 1 } ∈ passNewQueue e1 s.queue := by
    have h0 := passNewQueue_fail_keep hNodup hMem hm1 (by rw [hR]; decide)
    rw [hR] at h0
    exact h0
  have hMem1 : { op with retryCount := 1 } ∈ (syncQueue e1 saveOk s).1.queue := by
    rw [hq1]; exact hk1
  have hOn1 : (syncQueue e1 saveOk s).1.isOnline = true := by
    rw [syncQueue_isOnline, hOn]
  have hSync1 : (syncQueue e1 saveOk s).1.syncInProgress = false :=
    syncQueue_syncInProgress hSync
  have hNodup1 : ((syncQueue e1 saveOk s).1.queue.map QueuedOperation.id).Nodup :=
    syncQueue_nodup hNodup
  obtain ⟨m2, hm2⟩ := hFail2 { op with retryCount := 1 } rfl
  have hne2 : (syncQueue e1 saveOk s).1.queue ≠ [] := List.ne_nil_of_mem hMem1
  have hq2 : (syncQueue e2 saveOk (syncQueue e1 saveOk s).1).1.queue =
      passNewQueue e2 (syncQueue e1 saveOk s).1.queue := by
    rw [syncQueue_run hOn1 hSync1 hne2]
  have hk2 : { op with retryCount := 2 } ∈
      passNewQueue e2 (syncQueue e1 saveOk s).1.queue := by
    have h0 := @passNewQueue_fail_keep e2 _ { op with retryCount := 1 } m2
      hNodup1 hMem1 hm2 (by show (1 : Nat) + 1 < MAX_RETRIES; decide)
    exact h0
  have hMem2 : { op with retryCount := 2 } ∈
      (syncQueue e2 saveOk (syncQueue e1 saveOk s).1).1.queue := by
    rw [hq2]; exact hk2
  have hOn2 : (syncQueue e2 saveOk (syncQueue e1 saveOk s).1).1.isOnline = true := by
    rw [syncQueue_isOnline, hOn1]
  have hSync2 : (syncQueue e2 saveOk (syncQueue e1 saveOk s).1).1.syncInProgress = false :=
    syncQueue_syncInProgress hSync1
  obtain ⟨m3, hm3⟩ := hFail3 { op with retryCount := 2 } rfl
  have hne3 : (syncQueue e2 saveOk (syncQueue e1 saveOk s).1).1.queue ≠ [] :=
    List.ne_nil_of_mem hMem2
  have hq3 : (syncQueue e3 saveOk
      (syncQueue e2 saveOk (syncQueue e1 saveOk s).1).1).1.queue =
      passNewQueue e3 (syncQueue e2 saveOk (syncQueue e1 saveOk s).1).1.queue := by
    rw [syncQueue_run hOn2 hSync2 hne3]
  have hgone : ∀ o ∈ (syncQueue e3 saveOk
      (syncQueue e2 saveOk (syncQueue e1 saveOk s).1).1).1.queue, o.id ≠ op.id := by
    rw [hq3]
    exact @passNewQueue_fail_drop e3 _ { op with retryCount := 2 } m3 hMem2 hm3
      (by show MAX_RETRIES ≤ (2 : Nat) + 1; decide)
  exact ⟨hMem1, hMem2, hgone, drainPasses_absent hgone,
    fun e t => syncQueue_retry_mono e saveOk t⟩

/-- Witness for C1 at a concrete always-failing one-element queue. -/
theorem claim1_retry_cap_witness :
    sampleOp.retryCount = 0 ∧
    (∀ o ∈ (drainPasses true [] (syncQueue failAll true (syncQueue failAll true
        (syncQueue failAll true ⟨[sampleOp], true, false, none⟩).1).1).1).queue,
      o.id ≠ sampleOp.id) := by
  refine ⟨rfl, ?_⟩
  have h := claim1_retry_cap true ⟨[sampleOp], true, false, none⟩ sampleOp
    failAll failAll failAll [] rfl rfl (by decide) (by decide) rfl
    (fun _ _ => ⟨"network error", rfl⟩)
    (fun _ _ => ⟨"network error", rfl⟩)
    (fun _ _ => ⟨"network error", rfl⟩)
  exact h.2.2.2.1

/-- Claim C4: `syncQueue` is a no-op — state (queue and storage included)
unchanged and no service call issued — when offline, when a drain is already
in progress, or when the queue is empty. -/
theorem claim4_drain_noop (exec : QueuedOperation → Except String Unit)
    (saveOk : Bool) (s : QState)
    (h : s.isOnline = false ∨ s.syncInProgress = true ∨ s.queue = []) :
    syncQueue exec saveOk s = (s, []) :=
  syncQueue_noop h

/-- Witness for C4 at a concrete offline state. -/
theorem claim4_drain_noop_witness :
    (QState.isOnline ⟨[sampleOp], false, false, none⟩ = false) ∧
    syncQueue failAll true ⟨[sampleOp], false, false, none⟩ =
      (⟨[sampleOp], false, false, none⟩, []) :=
  ⟨rfl, claim4_drain_noop failAll true _ (Or.inl rfl)⟩

/-- Claim C7: `loadQueue` yields the persisted sequence when one parses,
and the empty sequence when no prior state exists or the stored
representation fails to parse (the `catch` path), so startup always gets a
well-defined queue. -/
theorem claim7_load_total (q : List QueuedOperation) (raw : String) :
    loadQueue none = [] ∧
    loadQueue (some (StoredValue.wellFormed q)) = q ∧
    loadQueue (some (StoredValue.corrupt raw)) = [] :=
  ⟨rfl, rfl, rfl⟩

/-- Claim C10: after a drain pass that passed the entry guard, every
operation still in the queue has `retryCount` strictly below `MAX_RETRIES`
— including operations that entered the pass with a counter already at or
above the cap. -/
theorem claim10_cap_invariant (exec : QueuedOperation → Except String Unit)
    (saveOk : Bool) (s : QState)
    (h1 : s.isOnline = true) (h2 : s.syncInProgress = false)
    (h3 : s.queue ≠ []) :
    ∀ op2 ∈ (syncQueue exec saveOk s).1.queue, op2.retryCount < MAX_RETRIES := by
  intro op2 hm
  have hq : (syncQueue exec saveOk s).1.queue = passNewQueue exec s.queue := by
    rw [syncQueue_run h1 h2 h3]
  rw [hq] at hm
  exact passNewQueue_retry_lt hm

/-- Witness for C10: a queue holding an operation whose persisted counter is
already 5 (above the cap). -/
theorem claim10_cap_invariant_witness :
    ([{ sampleOp with retryCount := 5 }] ≠ ([] : List QueuedOperation)) ∧
    (∀ op2 ∈ (syncQueue failAll true
        ⟨[{ sampleOp with retryCount := 5 }], true, false, none⟩).1.queue,
      op2.retryCount < MAX_RETRIES) := by
  refine ⟨by decide, ?_⟩
  exact claim10_cap_invariant failAll true _ rfl rfl (by decide)

/-- Claim C2: within one guard-passing pass over a queue with pairwise
distinct ids: on success an operation is removed with its retry counter
unchanged; on failure the counter is incremented by exactly one and the
operation is removed exactly when the incremented counter meets or exceeds
`MAX_RETRIES`.  The closing conjunct runs the fails-twice-then-succeeds
scenario concretely: the operation enters its third pass with
`retryCount = 2`, succeeds there without an increment, and is removed. -/
theorem claim2_single_pass (exec : QueuedOperation → Except String Unit)
    (saveOk : Bool) (s : QState)
    (h1 : s.isOnline = true) (h2 : s.syncInProgress = false) (h3 : s.queue ≠ [])
    (hNodup : (s.queue.map QueuedOperation.id).Nodup) :
    (∀ op ∈ s.queue,
      (∀ u : Unit, exec op = Except.ok u →
        (syncStep exec op).1.retryCount = op.retryCount ∧
        ∀ o ∈ (syncQueue exec saveOk s).1.queue, o.id ≠ op.id) ∧
      (∀ msg : String, exec op = Except.error msg →
        (syncStep exec op).1.retryCount = op.retryCount + 1 ∧
        (MAX_RETRIES ≤ op.retryCount + 1 →
          ∀ o ∈ (syncQueue exec saveOk s).1.queue, o.id ≠ op.id) ∧
        (op.retryCount + 1 < MAX_RETRIES →
          { op with retryCount := op.retryCount + 1 } ∈
            (syncQueue exec saveOk s).1.queue))) ∧
    ((syncQueue flaky true (syncQueue flaky true
        (⟨[sampleOp], true, false, none⟩ : QState)).1).1.queue =
      [{ sampleOp with retryCount := 2 }] ∧
     syncStep flaky { sampleOp with retryCount := 2 } =
      ({ sampleOp with retryCount := 2 }, true) ∧
     (syncQueue flaky true (syncQueue flaky true (syncQueue flaky true
        (⟨[sampleOp], true, false, none⟩ : QState)).1).1).1.queue = []) := by
  have hq : (syncQueue exec saveOk s).1.queue = passNewQueue exec s.queue := by
    rw [syncQueue_run h1 h2 h3]
  refine ⟨?_, by decide, by decide, by decide⟩
  intro op hop
  constructor
  · intro u hok
    refine ⟨by rw [syncStep_ok hok], ?_⟩
    rw [hq]
    exact passNewQueue_succ_drop hop hok
  · intro msg herr
    refine ⟨by rw [syncStep_error herr], ?_, ?_⟩
    · intro hge
      rw [hq]
      exact passNewQueue_fail_drop hop herr hge
    · intro hlt
      rw [hq]
      exact passNewQueue_fail_keep hNodup hop herr hlt

/-- Witness for C2: a single failing attempt increments the counter by one
and keeps the operation queued with the new counter. -/
theorem claim2_single_pass_witness :
    (sampleOp ∈ (⟨[sampleOp], true, false, none⟩ : QState).queue) ∧
    (syncStep flaky sampleOp).1.retryCount = sampleOp.retryCount + 1 ∧
    ({ sampleOp with retryCount := 1 } ∈
      (syncQueue flaky true ⟨[sampleOp], true, false, none⟩).1.queue) := by
  refine ⟨by decide, ?_, ?_⟩ <;>
  · have h := (claim2_single_pass flaky true ⟨[sampleOp], true, false, none⟩
      rfl rfl (by decide) (by decide)).1 sampleOp (by decide)
    have h2 := h.2 "network error" rfl
    first
    | exact h2.1
    | exact h2.2.2 (by decide)

/-- Claim C5: during a guard-passing pass the service calls issued are
exactly `executeOperation` mapped over the queue in enqueue (FIFO) order —
every operation is attempted, whatever happened to the ones before it; in
particular for a queue holding two CREATE operations A then B, the create
call carrying the payload of A precedes the one carrying the payload of B. -/
theorem claim5_fifo (exec : QueuedOperation → Except String Unit)
    (saveOk : Bool) (s : QState)
    (h1 : s.isOnline = true) (h2 : s.syncInProgress = false) (h3 : s.queue ≠ []) :
    (syncQueue exec saveOk s).2 = s.queue.map executeOperation ∧
    (∀ A B : QueuedOperation, s.queue = [A, B] →
      A.type = OpType.CREATE → B.type = OpType.CREATE →
      (syncQueue exec saveOk s).2 =
        [ServiceCall.createHarvest A.data, ServiceCall.createHarvest B.data]) := by
  have hc : (syncQueue exec saveOk s).2 = s.queue.map executeOperation := by
    rw [syncQueue_run h1 h2 h3]
  refine ⟨hc, ?_⟩
  intro A B hqAB hA hB
  rw [hc, hqAB]
  simp [executeOperation, hA, hB]

/-- Witness for C5: operations A then B enqueued while offline are delivered
as two create calls with the payload of A first. -/
theorem claim5_fifo_witness :
    ((⟨[sampleOp, sampleOpB], true, false, none⟩ : QState).queue ≠ []) ∧
    (syncQueue failAll true ⟨[sampleOp, sampleOpB], true, false, none⟩).2 =
      [ServiceCall.createHarvest sampleData, ServiceCall.createHarvest sampleDataB] := by
  refine ⟨by decide, ?_⟩
  exact (claim5_fifo failAll true ⟨[sampleOp, sampleOpB], true, false, none⟩
    rfl rfl (by decide)).2 sampleOp sampleOpB rfl rfl rfl

/-- Claim C3: `queueOperation` returns the generated id; while offline it
appends the new operation (retry counter 0), persists the appended queue
before returning, and issues no service call; for any state, a drain pass is
triggered — some service call is issued — exactly when online and not
already draining; and any sequence of enqueues made offline grows the queue
by exactly the number of calls with no delivery attempt. -/
theorem claim3_enqueue (now : Nat) (rand : String)
    (exec : QueuedOperation → Except String Unit)
    (ty : OpType) (d : HData) (s : QState) (reqs : List EnqueueReq)
    (hOff : s.isOnline = false) :
    ((queueOperation now rand exec true ty d s).2.1 = generateId now rand) ∧
    ((queueOperation now rand exec true ty d s).1.queue =
      s.queue ++ [⟨generateId now rand, ty, d, now, 0⟩]) ∧
    ((queueOperation now rand exec true ty d s).1.storage =
      some (StoredValue.wellFormed
        (s.queue ++ [⟨generateId now rand, ty, d, now, 0⟩]))) ∧
    ((queueOperation now rand exec true ty d s).2.2 = []) ∧
    (∀ t : QState, ((queueOperation now rand exec true ty d t).2.2 ≠ []) ↔
      (t.isOnline = true ∧ t.syncInProgress = false)) ∧
    ((enqueueAll exec true reqs s).1.queue.length =
      s.queue.length + reqs.length ∧
     (enqueueAll exec true reqs s).2 = []) := by
  have hcond : (s.isOnline && !s.syncInProgress) = false := by rw [hOff]; rfl
  have hu := @queueOperation_untriggered now rand exec true ty d s hcond
  refine ⟨by rw [hu], by rw [hu], by rw [hu]; rfl, by rw [hu], ?_,
    (enqueueAll_offline hOff).2⟩
  intro t
  constructor
  · intro hne
    by_contra hcon
    have hcf : (t.isOnline && !t.syncInProgress) = false := by
      cases ho : t.isOnline <;> cases hs : t.syncInProgress <;> simp_all
    rw [queueOperation_untriggered hcf] at hne
    exact hne rfl
  · rintro ⟨ho, hs⟩
    have hct : (t.isOnline && !t.syncInProgress) = true := by rw [ho, hs]; rfl
    have hrun := @syncQueue_run exec true
      { t with
        queue := t.queue ++ [⟨generateId now rand, ty, d, now, 0⟩],
        storage := saveQueue true t.storage
          (t.queue ++ [⟨generateId now rand, ty, d, now, 0⟩]) }
      ho hs (by simp)
    rw [queueOperation_triggered hct, hrun]
    simp

/-- Witness for C3 at a concrete offline state. -/
theorem claim3_enqueue_witness :
    (QState.isOnline ⟨[], false, false, none⟩ = false) ∧
    (queueOperation 1 "a" failAll true OpType.CREATE sampleData
      ⟨[], false, false, none⟩).1.queue =
      [⟨generateId 1 "a", OpType.CREATE, sampleData, 1, 0⟩] := by
  refine ⟨rfl, ?_⟩
  exact (claim3_enqueue 1 "a" failAll OpType.CREATE sampleData
    ⟨[], false, false, none⟩ [] rfl).2.1

/-- Claim C6: with the storage write succeeding, both mutating entry points
leave durable storage holding exactly the final in-memory queue before they
return, so reloading the persisted slot reproduces the in-memory queue with
nothing lost and nothing duplicated. -/
theorem claim6_write_through (now : Nat) (rand : String)
    (exec : QueuedOperation → Except String Unit)
    (ty : OpType) (d : HData) (s : QState) :
    ((queueOperation now rand exec true ty d s).1.storage =
        some (StoredValue.wellFormed
          (queueOperation now rand exec true ty d s).1.queue) ∧
      loadQueue (queueOperation now rand exec true ty d s).1.storage =
        (queueOperation now rand exec true ty d s).1.queue) ∧
    (∀ (exec2 : QueuedOperation → Except String Unit) (t : QState),
      t.isOnline = true → t.syncInProgress = false → t.queue ≠ [] →
      ((syncQueue exec2 true t).1.storage =
          some (StoredValue.wellFormed (syncQueue exec2 true t).1.queue) ∧
        loadQueue (syncQueue exec2 true t).1.storage =
          (syncQueue exec2 true t).1.queue)) := by
  constructor
  · by_cases hb : (s.isOnline && !s.syncInProgress) = true
    · have h1 : s.isOnline = true := by revert hb; cases s.isOnline <;> simp
      have h2 : s.syncInProgress = false := by
        revert hb; cases s.syncInProgress <;> simp
      rw [queueOperation_triggered hb,
        @syncQueue_run exec true
          { s with
            queue := s.queue ++ [⟨generateId now rand, ty, d, now, 0⟩],
            storage := saveQueue true s.storage
              (s.queue ++ [⟨generateId now rand, ty, d, now, 0⟩]) }
          h1 h2 (by simp)]
      exact ⟨rfl, rfl⟩
    · have hbf : (s.isOnline && !s.syncInProgress) = false := by
        revert hb; cases (s.isOnline && !s.syncInProgress) <;> simp
      rw [queueOperation_untriggered hbf]
      exact ⟨rfl, rfl⟩
  · intro exec2 t h1 h2 h3
    rw [syncQueue_run h1 h2 h3]
    exact ⟨rfl, rfl⟩

/-- Witness for C6 at a concrete online state with a nonempty queue. -/
theorem claim6_write_through_witness :
    (QState.isOnline ⟨[sampleOp], true, false, none⟩ = true) ∧
    loadQueue (queueOperation 2 "b" failAll true OpType.CREATE sampleDataB
        ⟨[sampleOp], true, false, none⟩).1.storage =
      (queueOperation 2 "b" failAll true OpType.CREATE sampleDataB
        ⟨[sampleOp], true, false, none⟩).1.queue := by
  refine ⟨rfl, ?_⟩
  exact (claim6_write_through 2 "b" failAll OpType.CREATE sampleDataB
    ⟨[sampleOp], true, false, none⟩).1.2

/-- Claim C8: delivery and storage errors stay local.  The behaviour of a
pass depends only on which attempts fail, never on the error values (they
are swallowed by the catch); a failing delivery never aborts the pass — the
calls issued cover the whole queue; and with the storage write failing,
`queueOperation` still returns the id and still appends in memory, the
storage slot simply left as it was. -/
theorem claim8_errors_local
    (exec exec2 : QueuedOperation → Except String Unit) (saveOk : Bool)
    (s : QState) (now : Nat) (rand : String) (ty : OpType) (d : HData)
    (hsame : ∀ o : QueuedOperation, deliveryOk (exec o) = deliveryOk (exec2 o)) :
    (syncQueue exec saveOk s = syncQueue exec2 saveOk s) ∧
    (s.isOnline = true → s.syncInProgress = false → s.queue ≠ [] →
      (syncQueue exec saveOk s).2 = s.queue.map executeOperation) ∧
    ((queueOperation now rand exec false ty d s).2.1 = generateId now rand) ∧
    (s.isOnline = false →
      (queueOperation now rand exec false ty d s).1.queue =
        s.queue ++ [⟨generateId now rand, ty, d, now, 0⟩] ∧
      (queueOperation now rand exec false ty d s).1.storage = s.storage) := by
  refine ⟨syncQueue_congr hsame, ?_, ?_, ?_⟩
  · intro h1 h2 h3
    rw [syncQueue_run h1 h2 h3]
  · by_cases hb : (s.isOnline && !s.syncInProgress) = true
    · rw [queueOperation_triggered hb]
    · have hbf : (s.isOnline && !s.syncInProgress) = false := by
        revert hb; cases (s.isOnline && !s.syncInProgress) <;> simp
      rw [queueOperation_untriggered hbf]
  · intro hOff
    have hcond : (s.isOnline && !s.syncInProgress) = false := by rw [hOff]; rfl
    rw [queueOperation_untriggered hcond]
    exact ⟨rfl, rfl⟩

/-- Environment failing with a different error text than `failAll`. -/
def failOther : QueuedOperation → Except String Unit :=
  fun _ => Except.error "storage quota exceeded"

/-- Witness for C8: two environments differing only in error text yield
identical passes. -/
theorem claim8_errors_local_witness :
    (∀ o : QueuedOperation, deliveryOk (failAll o) = deliveryOk (failOther o)) ∧
    syncQueue failAll true ⟨[sampleOp], true, false, none⟩ =
      syncQueue failOther true ⟨[sampleOp], true, false, none⟩ := by
  refine ⟨fun o => rfl, ?_⟩
  exact (claim8_errors_local failAll failOther true ⟨[sampleOp], true, false, none⟩
    1 "a" OpType.CREATE sampleData (fun o => rfl)).1

/-- Counterexample to C9 as stated: `generateId` is only
`Date.now()` plus a random suffix, so two enqueues seeing the same
timestamp and the same random suffix produce two queued operations with the
same id — the queue then holds a duplicate id. -/
theorem claim9_id_unique_counterexample :
    ((queueOperation 5 "x" failAll true OpType.CREATE sampleDataB
        (queueOperation 5 "x" failAll true OpType.CREATE sampleData
          ⟨[], false, false, none⟩).1).1.queue.length = 2) ∧
    ¬ (((queueOperation 5 "x" failAll true OpType.CREATE sampleDataB
        (queueOperation 5 "x" failAll true OpType.CREATE sampleData
          ⟨[], false, false, none⟩).1).1.queue.map QueuedOperation.id).Nodup) := by
  constructor <;> decide

/-- Claim C9 amended: queue ids stay pairwise distinct across an enqueue
provided the generated id differs from every id already queued (no
timestamp-plus-suffix collision); drain passes only remove, so they preserve
distinctness. -/
theorem claim9_id_unique_amended (now : Nat) (rand : String)
    (exec : QueuedOperation → Except String Unit) (saveOk : Bool)
    (ty : OpType) (d : HData) (s : QState)
    (hNodup : (s.queue.map QueuedOperation.id).Nodup)
    (hFresh : ∀ o ∈ s.queue, o.id ≠ generateId now rand) :
    ((queueOperation now rand exec saveOk ty d s).1.queue.map
      QueuedOperation.id).Nodup := by
  have happ : ((s.queue ++
      [QueuedOperation.mk (generateId now rand) ty d now 0]).map
      QueuedOperation.id).Nodup := by
    rw [List.map_append]
    apply List.Nodup.append hNodup (List.nodup_singleton _)
    intro a ha hb
    simp only [List.map_cons, List.map_nil, List.mem_singleton] at hb
    simp only [List.mem_map] at ha
    obtain ⟨o, ho, rfl⟩ := ha
    exact hFresh o ho hb
  by_cases hb : (s.isOnline && !s.syncInProgress) = true
  · rw [queueOperation_triggered hb]
    exact syncQueue_nodup happ
  · have hbf : (s.isOnline && !s.syncInProgress) = false := by
      revert hb; cases (s.isOnline && !s.syncInProgress) <;> simp
    rw [queueOperation_untriggered hbf]
    exact happ

/-- Witness for the amended C9 at a fresh generated id. -/
theorem claim9_id_unique_amended_witness :
    (∀ o ∈ (⟨[sampleOp], false, false, none⟩ : QState).queue,
      o.id ≠ generateId 2 "b") ∧
    ((queueOperation 2 "b" failAll true OpType.CREATE sampleDataB
        ⟨[sampleOp], false, false, none⟩).1.queue.map
      QueuedOperation.id).Nodup := by
  refine ⟨by decide, ?_⟩
  exact claim9_id_unique_amended 2 "b" failAll true OpType.CREATE sampleDataB
    ⟨[sampleOp], false, false, none⟩ (by decide) (by decide)

end OfflineQueue
